import Mathlib

/-!
Shallow embedding of `src/wagtail_vector_index/storage/base.py`: the
`VectorIndex` orchestration core, its `_deduplicate_list` utility, the
`StorageProvider` construction/definition checks and the provider-mixin
compatibility check.

Modelling conventions:
* Domain objects are a type parameter `α` with decidable equality (Python
  object equality / hashability).
* Vector components are never computed on by this module (they are produced
  by the embedding backend and passed opaquely to the storage provider), so
  they are modelled as integers.
* The external collaborators (embedding backend, storage provider, document
  converter, chat backend, Django settings) are a record of pure functions
  `Env`; per the converter contract, `bulk_from_documents` maps each
  document to its owning domain object, i.e. it is `List.map` of
  `from_document`.
* Calls made to the collaborators are recorded in a trace (`List Call`) so
  that ordering properties ("fails before any storage or chat call") are
  statable.
* Python exceptions are the constructors of `Err`; fallible operations
  return `Except Err _`.
-/

/-- `Document` dataclass: vector, embedding_pk, metadata mapping.
Metadata is a string-keyed mapping; modelled as an association list. -/
structure Document where
  vector : List Int
  embedding_pk : Nat
  metadata : List (String × String)
deriving DecidableEq, Repr

/-- One chat message dict with keys "content" and "role". -/
structure Message where
  content : String
  role : String
deriving DecidableEq, Repr

/-- `QueryResponse` dataclass: a response sequence and the source objects. -/
structure QueryResponse (α : Type) where
  response : List String
  sources : List α
deriving DecidableEq, Repr

/-- The Python exception kinds raised by this module. -/
inductive Err where
  | valueError : String → Err
  | keyError : String → Err
  | typeError : String → Err
  | improperlyConfigured : String → Err
  | attributeError : String → Err
deriving DecidableEq, Repr

/-- A call made by the index to one of its external collaborators. -/
inductive Call where
  | embedCall : List String → Call
  | storageCall : List Int → Nat → Call
  | chatCall : String → List Message → Call
deriving DecidableEq, Repr

/-- The external collaborators a `VectorIndex` call resolves and uses:
embedding backend (`embed`), the concrete index's storage access
(`get_similar_documents`), the document converter (`from_document`,
`to_documents`), the chat backend registry (`chat alias messages`) and the
optional `WAGTAIL_VECTOR_INDEX_QUERY_PROMPT` Django setting. -/
structure Env (α : Type) where
  embed : List String → List (List Int)
  getSimilarDocuments : List Int → Nat → List Document
  fromDocument : Document → α
  toDocuments : α → List Document
  chat : String → List Message → String
  queryPromptSetting : Option String

/-- Python `mapping[key]` lookup on an association list (first match). -/
def lookupMapping (m : List (String × String)) (key : String) : Option String :=
  match m.find? (fun p => p.1 == key) with
  | some p => some p.2
  | none => none

/-- `dict.fromkeys` insertion: keys are inserted in iteration order and a key
already present is skipped, so the first occurrence wins. `seen` is the set
of keys already inserted. -/
def dictFromKeysAux {α : Type} [DecidableEq α] : List α → List α → List α
  | [], _ => []
  | x :: xs, seen =>
      if x ∈ seen then dictFromKeysAux xs seen
      else x :: dictFromKeysAux xs (seen ++ [x])

/-- `list(dict.fromkeys(l))`: first-occurrence-preserving deduplication. -/
def dictFromKeys {α : Type} [DecidableEq α] (l : List α) : List α :=
  dictFromKeysAux l []

/-- `VectorIndex._deduplicate_list(objects, exclusions=None)`:
`list(dict.fromkeys(item for item in objects if item not in exclusions))`
with `exclusions` defaulting to the empty list when `None`. -/
def VectorIndex.deduplicate_list {α : Type} [DecidableEq α]
    (objects : List α) (exclusions : Option (List α)) : List α :=
  let excl := exclusions.getD []
  dictFromKeys (objects.filter (fun item => ¬ item ∈ excl))

/-- The sequence of distinct values of a list in order of first appearance,
written as the textbook recursion. Used to state that `_deduplicate_list`
implements exactly this. -/
def specFirstOccurrenceDistinct {α : Type} [DecidableEq α] : List α → List α
  | [] => []
  | x :: xs => x :: specFirstOccurrenceDistinct (xs.filter (fun y => ¬ y = x))
termination_by l => l.length
decreasing_by
  simp only [List.length_cons]
  exact Nat.lt_succ_of_le (List.length_filter_le _ _)

/-- The built-in default query prompt string (the `or` fallback in `query`).
`\x27` is the apostrophe character. -/
def defaultQueryPrompt : String :=
  "You are a helpful assistant. Use the following context to answer the question. Don\x27t mention the context in your answer."

/-- `getattr(settings, "WAGTAIL_VECTOR_INDEX_QUERY_PROMPT", None) or default`:
Python `or` falls through on any falsy value, so both an absent setting and
an empty string give the built-in default. -/
def resolveQueryPrompt (setting : Option String) : String :=
  match setting with
  | none => defaultQueryPrompt
  | some s => if s = "" then defaultQueryPrompt else s

/-- `VectorIndex.query(query, *, sources_limit=5, chat_backend_alias="default")`.
Returns the result together with the trace of collaborator calls, in order.

Mirrors the source line by line: embed the query (a backend returning no
vector raises `ValueError` before anything else happens); fetch similar
documents — note the source calls `self.get_similar_documents(query_embedding)`
with no `limit` argument, so the method's own default of `5` applies and
` sources_limit` is never read; deduplicate the converted sources; join every
matched document's `"content"` metadata with newlines (a document without
that key raises `KeyError`); build the 3-message prompt; call the chat
backend; wrap the response in a one-element list. -/
def VectorIndex.query {α : Type} [DecidableEq α] (env : Env α) (queryText : String)
    ( sources_limit : Nat) (chat_backend_alias : String) :
    Except Err (QueryResponse α) × List Call :=
  match env.embed [queryText] with
  | [] =>
      (Except.error (Err.valueError "No embeddings were generated for the given query."),
        [Call.embedCall [queryText]])
  | query_embedding :: _ =>
      let similar_documents := env.getSimilarDocuments query_embedding 5
      let sources :=
        VectorIndex.deduplicate_list (similar_documents.map env.fromDocument) none
      match similar_documents.mapM (fun d => lookupMapping d.metadata "content") with
      | none =>
          (Except.error (Err.keyError "content"),
            [Call.embedCall [queryText], Call.storageCall query_embedding 5])
      | some contents =>
          let merged_context := String.intercalate "\n" contents
          let prompt := resolveQueryPrompt env.queryPromptSetting
          let messages : List Message :=
            [⟨prompt, "system"⟩, ⟨merged_context, "system"⟩, ⟨queryText, "user"⟩]
          let response := env.chat chat_backend_alias messages
          (Except.ok ⟨[response], sources⟩,
            [Call.embedCall [queryText], Call.storageCall query_embedding 5,
              Call.chatCall chat_backend_alias messages])

/-- `VectorIndex.search(query, *, limit=5)`: embed (same `ValueError` path as
`query`), fetch similar documents passing `limit` through, convert and
deduplicate. Returns the result with the trace of collaborator calls. -/
def VectorIndex.search {α : Type} [DecidableEq α] (env : Env α) (queryText : String)
    (limit : Nat) : Except Err (List α) × List Call :=
  match env.embed [queryText] with
  | [] =>
      (Except.error (Err.valueError "No embeddings were generated for the given query."),
        [Call.embedCall [queryText]])
  | query_embedding :: _ =>
      let similar_documents := env.getSimilarDocuments query_embedding limit
      (Except.ok (VectorIndex.deduplicate_list (similar_documents.map env.fromDocument) none),
        [Call.embedCall [queryText], Call.storageCall query_embedding limit])

/-- The accumulation loop of `find_similar`: for each document generated for
the input object, fetch similar documents and append
(`similar_documents += ...`). -/
def accumulatedSimilarDocuments {α : Type} (env : Env α) (object : α) (limit : Nat) :
    List Document :=
  (env.toDocuments object).foldl
    (fun acc d => acc ++ env.getSimilarDocuments d.vector limit) []

/-- `VectorIndex.find_similar(object, *, include_self=False, limit=5)`:
convert the object to documents, accumulate similar documents for each of its
vectors, convert back and deduplicate with `exclusions=None if include_self
else [object]`. -/
def VectorIndex.find_similar {α : Type} [DecidableEq α] (env : Env α) (object : α)
    ( include_self : Bool) (limit : Nat) : List α :=
  VectorIndex.deduplicate_list
    ((accumulatedSimilarDocuments env object limit).map env.fromDocument)
    (if include_self then none else some [object])

/-- A Python class object, as far as this module observes one: its name, the
names of the classes in its method-resolution order (so `issubclass c m`
is `m.name ∈ c.ancestorNames`), and the name of its metaclass (which is what
`c.__class__.__name__` evaluates to on a class object — `"type"` for an
ordinary class). -/
structure PyClass where
  name : String
  ancestorNames : List String
  metaclassName : String
deriving DecidableEq, Repr

/-- The part of a resolved storage provider `_get_storage_provider` looks at:
its required `index_mixin` class. -/
structure ResolvedStorageProvider where
  index_mixin : PyClass
deriving DecidableEq, Repr

/-- `VectorIndex._get_storage_provider`: resolve the provider by alias from
the registry, check `issubclass(self.__class__, provider.index_mixin)`, and
on mismatch raise `TypeError` with the message built from the f-string —
whose placeholder is `provider.index_mixin.__class__.__name__`, i.e. the
mixin's metaclass name. -/
def VectorIndex.get_storage_provider (storage_provider_alias : String)
    (registry : String → ResolvedStorageProvider) (selfClass : PyClass) :
    Except Err ResolvedStorageProvider :=
  let provider := registry storage_provider_alias
  if provider.index_mixin.name ∈ selfClass.ancestorNames then
    Except.ok provider
  else
    Except.error (Err.typeError
      ("The storage provider with alias \x27" ++ storage_provider_alias ++
        "\x27 requires an index that uses the \x27" ++
        provider.index_mixin.metaclassName ++ "\x27 mixin."))

/-- A Python dict value: string keys to string values. -/
abbrev DictVal : Type := List (String × String)

/-- A heap of dict objects; a reference is an index, allocation appends. This
tiny heap makes object identity observable, so that the deep-copy in
`StorageProvider.__init__` is a statement about which object is read and
written, not a no-op on pure values. -/
abbrev Store : Type := List DictVal

/-- Allocate a fresh dict object holding `v`. -/
def Store.alloc (s : Store) (v : DictVal) : Store × Nat :=
  (s ++ [v], s.length)

/-- Read the dict object behind a reference. -/
def Store.readRef (s : Store) (r : Nat) : DictVal :=
  s.getD r []

/-- `copy.deepcopy` on a dict of plain values: a new object with an equal
value (freshness comes from `Store.alloc`). -/
def deepcopyDict (v : DictVal) : DictVal := v

/-- The `config_class` declaration of a concrete storage provider: a typed
configuration dataclass, observed here through the keyword arguments its
constructor requires (`config_class(**config)` raises `TypeError` when a
required one is missing). -/
structure ConfigClassDecl where
  required_keys : List String
deriving DecidableEq, Repr

/-- `StorageProvider.__init__(config)`: deep-copy the caller's mapping into a
fresh dict object, build the typed configuration from the copy, and wrap the
`TypeError` for a missing required key in `ImproperlyConfigured`. Returns the
provider's config reference (on success) and the final heap. -/
def StorageProvider.init (cls : ConfigClassDecl) (s : Store) (configRef : Nat) :
    Except Err Nat × Store :=
  let original := s.readRef configRef
  let allocated := s.alloc (deepcopyDict original)
  let s1 := allocated.1
  let copyRef := allocated.2
  if cls.required_keys.all (fun k => (s1.readRef copyRef).any (fun p => p.1 == k)) then
    (Except.ok copyRef, s1)
  else
    (Except.error (Err.improperlyConfigured
      "Missing configuration settings for the vector backend: missing required keyword argument"),
      s1)

/-- `StorageProvider.__init_subclass__`: defining a subclass that does not
declare `config_class` raises `AttributeError` at class-definition time; a
declaring subclass yields a usable class. Only a successfully defined class
value can ever be passed to `StorageProvider.init`, so the failure precedes
any construction. -/
def StorageProvider.init_subclass (clsName : String)
    (declared : Option ConfigClassDecl) : Except Err ConfigClassDecl :=
  match declared with
  | some c => Except.ok c
  | none =>
      Except.error (Err.attributeError
        ("Storage provider " ++ clsName ++ " must specify a config_class class attribute"))

/-- Modelled from the spec: the error taxonomy (spec section 7) groups under
"configuration error" both the `ImproperlyConfigured` raised at
`StorageProvider` construction and the `AttributeError` raised at
storage-provider subclass definition. -/
def Err.isConfigurationError : Err → Bool
  | Err.improperlyConfigured _ => true
  | Err.attributeError _ => true
  | _ => false

/-- The worked example of the spec: a document "Cats are mammals.". -/
def docCatsMammals : Document :=
  ⟨[1, 2], 10, [("content", "Cats are mammals.")]⟩

/-- The worked example of the spec: a document "Cats purr.". -/
def docCatsPurr : Document :=
  ⟨[1, 2], 11, [("content", "Cats purr.")]⟩

/-- Environment for the spec's worked example: both documents convert to the
single domain object `1` (`Article(id=1)`), the embedding backend returns one
vector, no prompt override. -/
def envCats : Env Nat :=
  ⟨fun _ => [[1, 2]],
    fun _ _ => [docCatsMammals, docCatsPurr],
    fun _ => 1,
    fun _ => [],
    fun _ _ => "Cats are mammals that purr.",
    none⟩

/-- Environment whose embedding backend yields no vector for any input. -/
def envNoEmbedding : Env Nat :=
  ⟨fun _ => [], fun _ _ => [], fun _ => 0, fun _ => [], fun _ _ => "", none⟩

/-- Environment where the storage provider returns a self-similar document:
the object `1` converts to one document, and searching with that document's
vector returns a document that converts back to `1`. -/
def envSelfSimilar : Env Nat :=
  ⟨fun _ => [],
    fun _ _ => [⟨[5], 1, []⟩, ⟨[6], 2, []⟩],
    fun d => d.embedding_pk,
    fun _ => [⟨[5], 1, []⟩],
    fun _ _ => "",
    none⟩

-- Lemmas about the deduplication utility

theorem specFirstOccurrenceDistinct_nil {α : Type} [DecidableEq α] :
    specFirstOccurrenceDistinct ([] : List α) = [] := by
  rw [specFirstOccurrenceDistinct]

theorem specFirstOccurrenceDistinct_cons {α : Type} [DecidableEq α] (x : α) (xs : List α) :
    specFirstOccurrenceDistinct (x :: xs)
      = x :: specFirstOccurrenceDistinct (xs.filter (fun y => ¬ y = x)) := by
  rw [specFirstOccurrenceDistinct]

theorem mem_specFirstOccurrenceDistinct {α : Type} [DecidableEq α] (l : List α) (a : α) :
    a ∈ specFirstOccurrenceDistinct l ↔ a ∈ l := by
  induction l using specFirstOccurrenceDistinct.induct with
  | case1 => rw [specFirstOccurrenceDistinct_nil]
  | case2 x xs ih =>
      rw [specFirstOccurrenceDistinct_cons]
      by_cases hax : a = x
      · subst hax; simp
      · simp only [List.mem_cons, ih, List.mem_filter, decide_eq_true_eq]
        constructor
        · rintro (h | ⟨h, _⟩)
          · exact absurd h hax
          · exact Or.inr h
        · rintro (h | h)
          · exact absurd h hax
          · exact Or.inr ⟨h, hax⟩

theorem nodup_specFirstOccurrenceDistinct {α : Type} [DecidableEq α] (l : List α) :
    (specFirstOccurrenceDistinct l).Nodup := by
  induction l using specFirstOccurrenceDistinct.induct with
  | case1 => rw [specFirstOccurrenceDistinct_nil]; exact List.nodup_nil
  | case2 x xs ih =>
      rw [specFirstOccurrenceDistinct_cons]
      refine List.nodup_cons.mpr ⟨?_, ih⟩
      intro hmem
      rw [mem_specFirstOccurrenceDistinct] at hmem
      rw [List.mem_filter] at hmem
      simp at hmem

theorem specFirstOccurrenceDistinct_eq_self {α : Type} [DecidableEq α] (l : List α) :
    l.Nodup → specFirstOccurrenceDistinct l = l := by
  induction l using specFirstOccurrenceDistinct.induct with
  | case1 => intro _; rw [specFirstOccurrenceDistinct_nil]
  | case2 x xs ih =>
      intro h
      rw [List.nodup_cons] at h
      have hf : xs.filter (fun y => ¬ y = x) = xs := by
        refine List.filter_eq_self.mpr ?_
        intro a ha
        simp only [decide_eq_true_eq]
        intro hax
        exact h.1 (hax ▸ ha)
      rw [hf] at ih
      rw [specFirstOccurrenceDistinct_cons, hf, ih h.2]

theorem length_specFirstOccurrenceDistinct_le {α : Type} [DecidableEq α] (l : List α) :
    (specFirstOccurrenceDistinct l).length ≤ l.length := by
  induction l using specFirstOccurrenceDistinct.induct with
  | case1 => rw [specFirstOccurrenceDistinct_nil]
  | case2 x xs ih =>
      rw [specFirstOccurrenceDistinct_cons]
      simp only [List.length_cons]
      exact Nat.succ_le_succ (le_trans ih (List.length_filter_le _ _))

theorem filter_swap {α : Type} (p q : α → Bool) (l : List α) :
    (l.filter p).filter q = (l.filter q).filter p := by
  induction l with
  | nil => rfl
  | cons x xs ih =>
      by_cases hp : p x <;> by_cases hq : q x <;>
        simp [List.filter_cons, hp, hq, ih]

theorem specFirstOccurrenceDistinct_filter {α : Type} [DecidableEq α] (l : List α) :
    ∀ p : α → Bool, specFirstOccurrenceDistinct (l.filter p)
      = (specFirstOccurrenceDistinct l).filter p := by
  induction l using specFirstOccurrenceDistinct.induct with
  | case1 => intro p; rw [List.filter_nil, specFirstOccurrenceDistinct_nil, List.filter_nil]
  | case2 x xs ih =>
      intro p
      by_cases hp : p x
      · rw [List.filter_cons_of_pos hp, specFirstOccurrenceDistinct_cons,
          specFirstOccurrenceDistinct_cons, List.filter_cons_of_pos hp]
        rw [filter_swap, ih p]
      · rw [List.filter_cons_of_neg (by simpa using hp), specFirstOccurrenceDistinct_cons,
          List.filter_cons_of_neg (by simpa using hp)]
        rw [← ih p]
        have hkeep : (xs.filter p).filter (fun y => ¬ y = x) = xs.filter p := by
          refine List.filter_eq_self.mpr ?_
          intro a ha
          rw [List.mem_filter] at ha
          simp only [decide_eq_true_eq]
          intro hax
          rw [hax] at ha
          exact hp ha.2
        rw [filter_swap, hkeep]

theorem dictFromKeysAux_eq_spec {α : Type} [DecidableEq α] (l : List α) :
    ∀ seen : List α, dictFromKeysAux l seen
      = specFirstOccurrenceDistinct (l.filter (fun y => ¬ y ∈ seen)) := by
  induction l with
  | nil =>
      intro seen
      rw [dictFromKeysAux, List.filter_nil, specFirstOccurrenceDistinct_nil]
  | cons x xs ih =>
      intro seen
      by_cases hx : x ∈ seen
      · rw [dictFromKeysAux, if_pos hx,
          List.filter_cons_of_neg (by simpa using hx), ih seen]
      · have hsplit : xs.filter (fun y => ¬ y ∈ seen ++ [x])
            = (xs.filter (fun y => ¬ y ∈ seen)).filter (fun y => ¬ y = x) := by
          rw [List.filter_filter]
          refine List.filter_congr ?_
          intro a _
          by_cases h1 : a ∈ seen <;> by_cases h2 : a = x <;> simp [h1, h2]
        rw [dictFromKeysAux, if_neg hx,
          List.filter_cons_of_pos (by simpa using hx),
          specFirstOccurrenceDistinct_cons, ih (seen ++ [x]), hsplit]

theorem dictFromKeys_eq_spec {α : Type} [DecidableEq α] (l : List α) :
    dictFromKeys l = specFirstOccurrenceDistinct l := by
  rw [dictFromKeys, dictFromKeysAux_eq_spec]
  congr 1
  refine List.filter_eq_self.mpr ?_
  intro a _
  simp

/-- `_deduplicate_list` is the spec's "distinct values in first-appearance
order, then excluded values removed". -/
theorem deduplicate_list_eq_spec {α : Type} [DecidableEq α] (objects : List α)
    (exclusions : Option (List α)) :
    VectorIndex.deduplicate_list objects exclusions
      = (specFirstOccurrenceDistinct objects).filter
          (fun x => ¬ x ∈ exclusions.getD []) := by
  show dictFromKeys (objects.filter (fun item => ¬ item ∈ exclusions.getD [])) = _
  rw [dictFromKeys_eq_spec, specFirstOccurrenceDistinct_filter]

theorem mem_deduplicate_list {α : Type} [DecidableEq α] (objects : List α)
    (exclusions : Option (List α)) (a : α) :
    a ∈ VectorIndex.deduplicate_list objects exclusions
      ↔ a ∈ objects ∧ ¬ a ∈ exclusions.getD [] := by
  rw [deduplicate_list_eq_spec, List.mem_filter, mem_specFirstOccurrenceDistinct]
  simp

theorem nodup_deduplicate_list {α : Type} [DecidableEq α] (objects : List α)
    (exclusions : Option (List α)) :
    (VectorIndex.deduplicate_list objects exclusions).Nodup := by
  rw [deduplicate_list_eq_spec]
  exact (nodup_specFirstOccurrenceDistinct objects).filter _

theorem length_deduplicate_list_le {α : Type} [DecidableEq α] (objects : List α)
    (exclusions : Option (List α)) :
    (VectorIndex.deduplicate_list objects exclusions).length ≤ objects.length := by
  rw [deduplicate_list_eq_spec]
  exact le_trans (List.length_filter_le _ _) (length_specFirstOccurrenceDistinct_le _)

-- Claim theorems

/-- C2: for every input sequence and optional exclusion set,
`_deduplicate_list` returns the ordered list of distinct objects in order of
first appearance with every object equal to an excluded one removed; in
particular an excluded value never appears in the output. -/
theorem deduplicate_list_first_wins_exclusions_removed {α : Type} [DecidableEq α]
    (objects : List α) (exclusions : Option (List α)) :
    VectorIndex.deduplicate_list objects exclusions
      = (specFirstOccurrenceDistinct objects).filter
          (fun x => ¬ x ∈ exclusions.getD [])
    ∧ ∀ x ∈ exclusions.getD [], ¬ x ∈ VectorIndex.deduplicate_list objects exclusions := by
  refine ⟨deduplicate_list_eq_spec objects exclusions, ?_⟩
  intro x hx hmem
  rw [mem_deduplicate_list] at hmem
  exact hmem.2 hx

/-- Witness for C2 at a concrete input: `2` is excluded and occurs twice,
never as a first occurrence pattern that would survive. -/
theorem deduplicate_list_first_wins_exclusions_removed_witness :
    ¬ (2 : Nat) ∈ VectorIndex.deduplicate_list [1, 2, 1, 2, 3] (some [2]) :=
  (deduplicate_list_first_wins_exclusions_removed [1, 2, 1, 2, 3] (some [2])).2 2 (by decide)

/-- C10: `_deduplicate_list` is idempotent — applying it to its own output
with the same exclusions returns that output unchanged, and the output has no
duplicate elements. -/
theorem deduplicate_list_idempotent {α : Type} [DecidableEq α]
    (objects : List α) (exclusions : Option (List α)) :
    VectorIndex.deduplicate_list
        (VectorIndex.deduplicate_list objects exclusions) exclusions
      = VectorIndex.deduplicate_list objects exclusions
    ∧ (VectorIndex.deduplicate_list objects exclusions).Nodup := by
  refine ⟨?_, nodup_deduplicate_list objects exclusions⟩
  rw [deduplicate_list_eq_spec (VectorIndex.deduplicate_list objects exclusions) exclusions]
  rw [specFirstOccurrenceDistinct_eq_self _ (nodup_deduplicate_list objects exclusions)]
  refine List.filter_eq_self.mpr ?_
  intro a ha
  rw [mem_deduplicate_list] at ha
  simpa using ha.2

/-- C1 (refuted): `query` accepts a `sources_limit` argument but never reads
it — `get_similar_documents` is called with its own default limit — so two
calls differing only in `sources_limit` are identical in result and in every
collaborator call made. -/
theorem query_ignores_sources_limit {α : Type} [DecidableEq α] (env : Env α)
    (queryText : String) (limit1 limit2 : Nat) (chat_backend_alias : String) :
    VectorIndex.query env queryText limit1 chat_backend_alias
      = VectorIndex.query env queryText limit2 chat_backend_alias := rfl

/-- C3: when the embedding backend yields no vector for the input text,
`query` and `search` raise `ValueError` and the call trace contains only the
embedding call — no storage-provider or chat-backend call was made. -/
theorem query_search_value_error_before_storage {α : Type} [DecidableEq α]
    (env : Env α) (queryText : String) ( sources_limit limit : Nat)
    (chat_backend_alias : String) (h : env.embed [queryText] = []) :
    VectorIndex.query env queryText sources_limit chat_backend_alias
      = (Except.error (Err.valueError "No embeddings were generated for the given query."),
          [Call.embedCall [queryText]])
    ∧ VectorIndex.search env queryText limit
      = (Except.error (Err.valueError "No embeddings were generated for the given query."),
          [Call.embedCall [queryText]]) := by
  constructor
  · rw [VectorIndex.query]
    rw [h]
  · rw [VectorIndex.search]
    rw [h]

/-- Witness for C3 at a concrete environment whose embedding backend returns
no vectors. -/
theorem query_search_value_error_before_storage_witness :
    VectorIndex.query envNoEmbedding "anything" 5 "default"
      = (Except.error (Err.valueError "No embeddings were generated for the given query."),
          [Call.embedCall ["anything"]])
    ∧ VectorIndex.search envNoEmbedding "anything" 5
      = (Except.error (Err.valueError "No embeddings were generated for the given query."),
          [Call.embedCall ["anything"]]) :=
  query_search_value_error_before_storage envNoEmbedding "anything" 5 5 "default" rfl

/-- C5: on a successful `query`, the context is the newline-joined `"content"`
metadata of every matched document (duplicates kept), the prompt is exactly
the three messages system-instruction / system-context / user-query in that
order, the response is the raw chat response wrapped as a one-element list,
and the sources are the deduplicated converted documents; with no setting the
instruction falls back to the built-in default. -/
theorem query_context_prompt_and_response {α : Type} [DecidableEq α] (env : Env α)
    (queryText : String) ( sources_limit : Nat) (chat_backend_alias : String)
    (v : List Int) (rest : List (List Int)) (contents : List String)
    (h1 : env.embed [queryText] = v :: rest)
    (h2 : (env.getSimilarDocuments v 5).mapM
        (fun d => lookupMapping d.metadata "content") = some contents) :
    VectorIndex.query env queryText sources_limit chat_backend_alias
      = (Except.ok
          ⟨[env.chat chat_backend_alias
              [⟨resolveQueryPrompt env.queryPromptSetting, "system"⟩,
                ⟨String.intercalate "\n" contents, "system"⟩,
                ⟨queryText, "user"⟩]],
            VectorIndex.deduplicate_list
              ((env.getSimilarDocuments v 5).map env.fromDocument) none⟩,
          [Call.embedCall [queryText], Call.storageCall v 5,
            Call.chatCall chat_backend_alias
              [⟨resolveQueryPrompt env.queryPromptSetting, "system"⟩,
                ⟨String.intercalate "\n" contents, "system"⟩,
                ⟨queryText, "user"⟩]])
    ∧ resolveQueryPrompt none = defaultQueryPrompt := by
  constructor
  · rw [VectorIndex.query, h1]
    simp only [h2]
  · rfl

/-- Witness for C5: the spec's worked example — two documents whose contents
join to "Cats are mammals.\nCats purr." and whose converter maps both to the
single source object `1`. -/
theorem query_context_prompt_and_response_witness :
    VectorIndex.query envCats "cats" 5 "default"
      = (Except.ok ⟨["Cats are mammals that purr."], [1]⟩,
          [Call.embedCall ["cats"], Call.storageCall [1, 2] 5,
            Call.chatCall "default"
              [⟨defaultQueryPrompt, "system"⟩,
                ⟨"Cats are mammals.\nCats purr.", "system"⟩,
                ⟨"cats", "user"⟩]]) := by
  have h := (query_context_prompt_and_response envCats "cats" 5 "default" [1, 2] []
    ["Cats are mammals.", "Cats purr."] rfl rfl).1
  rw [h]
  rfl

/-- C6: `search` passes its `limit` argument through to
`get_similar_documents`, and its result is never longer than the list of
documents the storage provider returned. -/
theorem search_passes_limit_and_bounds_result {α : Type} [DecidableEq α]
    (env : Env α) (queryText : String) (limit : Nat)
    (v : List Int) (rest : List (List Int)) (h : env.embed [queryText] = v :: rest) :
    (VectorIndex.search env queryText limit).2
      = [Call.embedCall [queryText], Call.storageCall v limit]
    ∧ (VectorIndex.search env queryText limit).1
      = Except.ok (VectorIndex.deduplicate_list
          ((env.getSimilarDocuments v limit).map env.fromDocument) none)
    ∧ ∀ out, (VectorIndex.search env queryText limit).1 = Except.ok out →
        out.length ≤ (env.getSimilarDocuments v limit).length := by
  have hs : VectorIndex.search env queryText limit
      = (Except.ok (VectorIndex.deduplicate_list
            ((env.getSimilarDocuments v limit).map env.fromDocument) none),
          [Call.embedCall [queryText], Call.storageCall v limit]) := by
    rw [VectorIndex.search, h]
  refine ⟨by rw [hs], by rw [hs], ?_⟩
  intro out hout
  rw [hs] at hout
  have hout2 : Except.ok (VectorIndex.deduplicate_list
      ((env.getSimilarDocuments v limit).map env.fromDocument) none)
      = (Except.ok out : Except Err (List α)) := hout
  injection hout2 with h3
  rw [← h3]
  calc (VectorIndex.deduplicate_list
        ((env.getSimilarDocuments v limit).map env.fromDocument) none).length
      ≤ ((env.getSimilarDocuments v limit).map env.fromDocument).length :=
        length_deduplicate_list_le _ _
    _ = (env.getSimilarDocuments v limit).length := List.length_map _ _

/-- Witness for C6: the worked example with `limit=3` — the provider is asked
for at most 3 documents, returns 2, and the deduplicated result `[1]` has
length 1 ≤ 2. -/
theorem search_passes_limit_and_bounds_result_witness :
    (VectorIndex.search envCats "cats" 3).2
      = [Call.embedCall ["cats"], Call.storageCall [1, 2] 3]
    ∧ ([1] : List Nat).length ≤ (envCats.getSimilarDocuments [1, 2] 3).length :=
  ⟨(search_passes_limit_and_bounds_result envCats "cats" 3 [1, 2] [] rfl).1,
    (search_passes_limit_and_bounds_result envCats "cats" 3 [1, 2] [] rfl).2.2 [1] rfl⟩

/-- C7: `find_similar` with `include_self := false` never returns the input
object, even when a returned document converts back to it; with
`include_self := true` the object is returned whenever some accumulated
document converts back to it. -/
theorem find_similar_include_self_behaviour {α : Type} [DecidableEq α]
    (env : Env α) (object : α) (limit : Nat) :
    ¬ object ∈ VectorIndex.find_similar env object false limit
    ∧ (object ∈ (accumulatedSimilarDocuments env object limit).map env.fromDocument →
        object ∈ VectorIndex.find_similar env object true limit) := by
  constructor
  · intro hmem
    rw [VectorIndex.find_similar] at hmem
    rw [mem_deduplicate_list] at hmem
    simp at hmem
  · intro h
    rw [VectorIndex.find_similar, mem_deduplicate_list]
    simpa using h

/-- Witness for C7: a storage provider returning a self-similar document —
with `include_self := false` the object `1` is absent, with `true` present. -/
theorem find_similar_include_self_behaviour_witness :
    ¬ (1 : Nat) ∈ VectorIndex.find_similar envSelfSimilar 1 false 5
    ∧ (1 : Nat) ∈ VectorIndex.find_similar envSelfSimilar 1 true 5 :=
  ⟨(find_similar_include_self_behaviour envSelfSimilar 1 5).1,
    (find_similar_include_self_behaviour envSelfSimilar 1 5).2 (by decide)⟩

/-- C4 (message refuted): `_get_storage_provider` does raise `TypeError`
before returning the provider when the index class does not implement the
required mixin, but the message interpolates
`provider.index_mixin.__class__.__name__` — the mixin's metaclass name,
`"type"` for an ordinary class — so the message does not name the required
mixin, and two providers requiring differently named mixins produce the very
same message. -/
theorem get_storage_provider_message_names_metaclass :
    VectorIndex.get_storage_provider "default"
        (fun _ => ⟨⟨"PgvectorIndexMixin", ["PgvectorIndexMixin", "object"], "type"⟩⟩)
        ⟨"MyIndex", ["MyIndex", "VectorIndex", "object"], "type"⟩
      = Except.error (Err.typeError
          "The storage provider with alias \x27default\x27 requires an index that uses the \x27type\x27 mixin.")
    ∧ VectorIndex.get_storage_provider "default"
        (fun _ => ⟨⟨"QdrantIndexMixin", ["QdrantIndexMixin", "object"], "type"⟩⟩)
        ⟨"MyIndex", ["MyIndex", "VectorIndex", "object"], "type"⟩
      = VectorIndex.get_storage_provider "default"
        (fun _ => ⟨⟨"PgvectorIndexMixin", ["PgvectorIndexMixin", "object"], "type"⟩⟩)
        ⟨"MyIndex", ["MyIndex", "VectorIndex", "object"], "type"⟩ := by
  constructor
  · rfl
  · rfl

theorem readRef_append_length (s : Store) (v : DictVal) :
    Store.readRef (s ++ [v]) s.length = v := by
  unfold Store.readRef
  rw [List.getD_append_right _ _ _ _ (le_refl _), Nat.sub_self]
  rfl

theorem readRef_append_self (s : Store) (r : Nat) :
    Store.readRef (s ++ [Store.readRef s r]) r = Store.readRef s r := by
  rcases Nat.lt_or_ge r s.length with hlt | hge
  · unfold Store.readRef
    exact List.getD_append _ _ _ _ hlt
  · rcases Nat.eq_or_lt_of_le hge with heq | hlt2
    · rw [← heq]
      exact readRef_append_length s _
    · unfold Store.readRef
      rw [List.getD_append_right _ _ _ _ hge]
      rw [List.getD_eq_default _ _ (by simpa using Nat.le_sub_of_add_le (by omega))]
      rw [List.getD_eq_default _ _ (Nat.le_of_lt hlt2)]

/-- C8: constructing a `StorageProvider` from a mapping missing a required
key fails with `ImproperlyConfigured`, and in every construction — failing or
successful — the caller's dict object is left holding exactly its original
value, because the provider works on a deep copy allocated as a fresh
object. -/
theorem storage_provider_init_missing_key_and_isolation (cls : ConfigClassDecl)
    (s : Store) (configRef : Nat) :
    Store.readRef ((StorageProvider.init cls s configRef).2) configRef
      = Store.readRef s configRef
    ∧ (∀ k, k ∈ cls.required_keys → (∀ p ∈ Store.readRef s configRef, ¬ p.1 = k) →
        (StorageProvider.init cls s configRef).1
          = Except.error (Err.improperlyConfigured
              "Missing configuration settings for the vector backend: missing required keyword argument")) := by
  have h2 : (StorageProvider.init cls s configRef).2
      = s ++ [Store.readRef s configRef] := by
    rw [StorageProvider.init]
    dsimp only [Store.alloc, deepcopyDict]
    split
    · rfl
    · rfl
  refine ⟨by rw [h2]; exact readRef_append_self s configRef, ?_⟩
  intro k hk hmiss
  have hany : (Store.readRef s configRef).any (fun p => p.1 == k) = false := by
    rw [List.any_eq_false]
    intro p hp
    simpa using hmiss p hp
  have hall : cls.required_keys.all
      (fun k' => (Store.readRef (s ++ [Store.readRef s configRef]) s.length).any
        (fun p => p.1 == k')) = false := by
    rw [readRef_append_length]
    rw [List.all_eq_false]
    exact ⟨k, hk, by simp [hany]⟩
  rw [StorageProvider.init]
  dsimp only [Store.alloc, deepcopyDict]
  rw [if_neg (by rw [hall]; exact Bool.false_ne_true)]

/-- Witness for C8: a config requiring "api_key" built from a one-entry
mapping lacking it — construction fails with `ImproperlyConfigured` and the
caller's dict object still holds its original value. -/
theorem storage_provider_init_missing_key_and_isolation_witness :
    (StorageProvider.init ⟨["api_key"]⟩ [[("other", "x")]] 0).1
      = Except.error (Err.improperlyConfigured
          "Missing configuration settings for the vector backend: missing required keyword argument")
    ∧ Store.readRef ((StorageProvider.init ⟨["api_key"]⟩ [[("other", "x")]] 0).2) 0
      = [("other", "x")] :=
  ⟨(storage_provider_init_missing_key_and_isolation ⟨["api_key"]⟩ [[("other", "x")]] 0).2
      "api_key" (by decide) (by decide),
    (storage_provider_init_missing_key_and_isolation ⟨["api_key"]⟩ [[("other", "x")]] 0).1⟩

/-- C9: defining a `StorageProvider` subclass without a `config_class`
declaration fails right at class definition with an error in the
configuration-error taxonomy; only a definition that declares one yields a
class value, so the failure cannot be deferred to first use or to instance
construction (which consumes such a class value). -/
theorem init_subclass_missing_config_class_fails_at_definition (clsName : String) :
    StorageProvider.init_subclass clsName none
      = Except.error (Err.attributeError
          ("Storage provider " ++ clsName ++ " must specify a config_class class attribute"))
    ∧ Err.isConfigurationError (Err.attributeError
          ("Storage provider " ++ clsName ++ " must specify a config_class class attribute")) = true
    ∧ ∀ c : ConfigClassDecl, StorageProvider.init_subclass clsName (some c) = Except.ok c :=
  ⟨rfl, rfl, fun _ => rfl⟩
